import Mathlib

/-!
Verification of the Conductor orchestration core
(`aries_cloudagent/conductor.py`): a shallow embedding of `setup`, `start`,
`inbound_message_router` and `outbound_message_router`, with the outcomes of
awaited collaborator calls (wallet/ledger configuration, transport manager
startup, admin server startup, connection-target resolution, delivery)
supplied as explicit parameters, and the observable side effects (log calls,
service-locator bindings, instrumentation wraps, task enqueues) recorded as
event lists.
-/

namespace AriesConductor

/-- Python truthiness of an optional string: `None` and the empty string are
falsy, every other string is truthy. -/
def strTruthy : Option String → Bool
  | none => false
  | some s => !s.isEmpty

/-- A resolved delivery destination (endpoint URL plus routing keys), as
produced by `ConnectionManager.get_connection_targets`. -/
structure ConnectionTarget where
  endpoint : String
  routingKeys : List String
deriving DecidableEq, Repr

/-- An outbound message: payload, optional explicit target, optional target
list, optional connection identifier (`transport.outbound.message`). -/
structure OutboundMessage where
  payload : String
  target : Option ConnectionTarget
  target_list : Option (List ConnectionTarget)
  connection_id : Option String
deriving DecidableEq, Repr

/-- Python truthiness of `outbound.target`: only `None` is falsy. -/
def targetTruthy : Option ConnectionTarget → Bool := Option.isSome

/-- Python truthiness of `outbound.target_list`: `None` and the empty list are
falsy. -/
def listTruthy : Option (List ConnectionTarget) → Bool
  | none => false
  | some l => !l.isEmpty

/-- Outcome of `ConnectionManager.get_connection_targets(connection_id)`:
a target list, a `ConnectionManagerError`, or any other exception. -/
inductive ResolveResult where
  | ok (targets : List ConnectionTarget)
  | connectionManagerError
  | otherError (e : String)
deriving DecidableEq, Repr

/-- Outcome of `OutboundTransportManager.deliver(context, outbound)`: success,
an `OutboundDeliveryError` (no supported transport), or any other exception. -/
inductive DeliverResult where
  | ok
  | outboundDeliveryError
  | otherError (e : String)
deriving DecidableEq, Repr

/-- Observable actions of the outbound router: a call into
`get_connection_targets`, a call into `deliver`, a `LOGGER.exception` entry,
a `LOGGER.warning` entry. -/
inductive RouterEvent where
  | resolveCall (cid : String)
  | deliverCall (m : OutboundMessage)
  | logError (s : String)
  | logWarning (s : String)
deriving DecidableEq, Repr

/-- Whether the outbound router returned normally or an exception propagated
to its caller. -/
inductive RouterOutcome where
  | returned
  | raised (e : String)
deriving DecidableEq, Repr

/-- The delivery half of `Conductor.outbound_message_router`:
`self.outbound_transport_manager.deliver(context, outbound)` inside a `try`
that catches `OutboundDeliveryError`, logs a warning and returns (dropping the
message); any other exception propagates. -/
def deliverStep (deliver : OutboundMessage → DeliverResult)
    (outbound : OutboundMessage) (evts : List RouterEvent) :
    RouterOutcome × OutboundMessage × List RouterEvent :=
  match deliver outbound with
  | .ok => (.returned, outbound, evts ++ [.deliverCall outbound])
  | .outboundDeliveryError =>
      (.returned, outbound,
        evts ++ [.deliverCall outbound,
          .logWarning "Cannot queue message for delivery, no supported transport"])
  | .otherError e => (.raised e, outbound, evts ++ [.deliverCall outbound])

/-- Shallow embedding of `Conductor.outbound_message_router`: when the message
has no truthy `target`, no truthy `target_list` and a truthy `connection_id`,
resolve targets via `ConnectionManager.get_connection_targets` (assigning
`target_list` on success, logging and returning on `ConnectionManagerError`,
propagating any other exception), then hand the message to `deliver`.
Returns the outcome, the message as it stands on exit, and the event trace. -/
def outbound_message_router (resolve : String → ResolveResult)
    (deliver : OutboundMessage → DeliverResult)
    (outbound : OutboundMessage) :
    RouterOutcome × OutboundMessage × List RouterEvent :=
  if !targetTruthy outbound.target && !listTruthy outbound.target_list
      && strTruthy outbound.connection_id then
    match resolve (outbound.connection_id.getD "") with
    | .ok tgts =>
        deliverStep deliver { outbound with target_list := some tgts }
          [.resolveCall (outbound.connection_id.getD "")]
    | .connectionManagerError =>
        (.returned, outbound,
          [.resolveCall (outbound.connection_id.getD ""),
           .logError "Error preparing outbound message for transmission"])
    | .otherError e =>
        (.raised e, outbound, [.resolveCall (outbound.connection_id.getD "")])
  else
    deliverStep deliver outbound []

/-- Recognizer for resolution-call events. -/
def isResolveCall : RouterEvent → Bool
  | .resolveCall _ => true
  | _ => false

/-- Recognizer for delivery-call events. -/
def isDeliverCall : RouterEvent → Bool
  | .deliverCall _ => true
  | _ => false

theorem deliverStep_message (deliver : OutboundMessage → DeliverResult)
    (outbound : OutboundMessage) (evts : List RouterEvent) :
    (deliverStep deliver outbound evts).2.1 = outbound := by
  unfold deliverStep
  cases deliver outbound <;> rfl

theorem deliverStep_events_any (deliver : OutboundMessage → DeliverResult)
    (outbound : OutboundMessage) (evts : List RouterEvent) :
    ((deliverStep deliver outbound evts).2.2.any isResolveCall)
      = evts.any isResolveCall := by
  unfold deliverStep
  cases deliver outbound <;> simp [isResolveCall]

/-- C4: the outbound router calls `get_connection_targets` exactly when the
message has no truthy target, no truthy target list, and a truthy connection
identifier; in particular, with an explicit target or a non-empty target list,
resolution is never invoked. -/
theorem resolution_called_iff_no_target (resolve : String → ResolveResult)
    (deliver : OutboundMessage → DeliverResult) (outbound : OutboundMessage) :
    ((outbound_message_router resolve deliver outbound).2.2.any isResolveCall)
      = (!targetTruthy outbound.target && !listTruthy outbound.target_list
          && strTruthy outbound.connection_id) := by
  unfold outbound_message_router
  split
  case isTrue h =>
    cases hr : resolve (outbound.connection_id.getD "") <;>
      simp [h, hr, deliverStep_events_any, isResolveCall]
  case isFalse h =>
    rw [deliverStep_events_any]
    simp only [Bool.not_eq_true] at h
    simp [h]

/-- C5: for a message carrying only a connection identifier whose resolution
raises `ConnectionManagerError`, the router returns normally with the message
unchanged, logs the failure, and never invokes `deliver`: the message is
dropped. -/
theorem drop_on_resolution_failure (resolve : String → ResolveResult)
    (deliver : OutboundMessage → DeliverResult) (outbound : OutboundMessage)
    (ht : targetTruthy outbound.target = false)
    (hl : listTruthy outbound.target_list = false)
    (hc : strTruthy outbound.connection_id = true)
    (hr : resolve (outbound.connection_id.getD "")
        = ResolveResult.connectionManagerError) :
    outbound_message_router resolve deliver outbound
      = (RouterOutcome.returned, outbound,
         [RouterEvent.resolveCall (outbound.connection_id.getD ""),
          RouterEvent.logError "Error preparing outbound message for transmission"]) ∧
    ((outbound_message_router resolve deliver outbound).2.2.any isDeliverCall)
      = false := by
  have hmain : outbound_message_router resolve deliver outbound
      = (RouterOutcome.returned, outbound,
         [RouterEvent.resolveCall (outbound.connection_id.getD ""),
          RouterEvent.logError "Error preparing outbound message for transmission"]) := by
    unfold outbound_message_router
    simp [ht, hl, hc, hr]
  refine ⟨hmain, ?_⟩
  rw [hmain]
  simp [isDeliverCall]

/-- A connection-id-only message used as a concrete routing input. -/
def outboundConnOnly : OutboundMessage :=
  { payload := "payload", target := none, target_list := none,
    connection_id := some "conn-1" }

theorem drop_on_resolution_failure_witness :
    targetTruthy outboundConnOnly.target = false ∧
    listTruthy outboundConnOnly.target_list = false ∧
    strTruthy outboundConnOnly.connection_id = true ∧
    (outbound_message_router (fun _ => ResolveResult.connectionManagerError)
        (fun _ => DeliverResult.ok) outboundConnOnly).1 = RouterOutcome.returned ∧
    ((outbound_message_router (fun _ => ResolveResult.connectionManagerError)
        (fun _ => DeliverResult.ok) outboundConnOnly).2.2.any isDeliverCall)
      = false := by
  have h := drop_on_resolution_failure (fun _ => ResolveResult.connectionManagerError)
    (fun _ => DeliverResult.ok) outboundConnOnly rfl rfl (by decide) rfl
  exact ⟨rfl, rfl, by decide, by rw [h.1], h.2⟩

/-- C6: when every resolution succeeds but delivery raises
`OutboundDeliveryError` for every message, the router returns normally and
logs the drop warning: a no-transport delivery error never propagates. -/
theorem drop_on_no_transport (resolve : String → ResolveResult)
    (deliver : OutboundMessage → DeliverResult) (outbound : OutboundMessage)
    (hres : ∀ cid, ∃ tgts, resolve cid = ResolveResult.ok tgts)
    (hd : ∀ m, deliver m = DeliverResult.outboundDeliveryError) :
    (outbound_message_router resolve deliver outbound).1 = RouterOutcome.returned ∧
    RouterEvent.logWarning "Cannot queue message for delivery, no supported transport"
      ∈ (outbound_message_router resolve deliver outbound).2.2 := by
  unfold outbound_message_router
  split
  case isTrue h =>
    obtain ⟨tgts, hr⟩ := hres (outbound.connection_id.getD "")
    simp [hr, deliverStep, hd]
  case isFalse h =>
    simp [deliverStep, hd]

theorem drop_on_no_transport_witness :
    (outbound_message_router (fun _ => ResolveResult.ok [])
        (fun _ => DeliverResult.outboundDeliveryError) outboundConnOnly).1
      = RouterOutcome.returned ∧
    RouterEvent.logWarning "Cannot queue message for delivery, no supported transport"
      ∈ (outbound_message_router (fun _ => ResolveResult.ok [])
          (fun _ => DeliverResult.outboundDeliveryError) outboundConnOnly).2.2 :=
  drop_on_no_transport (fun _ => ResolveResult.ok [])
    (fun _ => DeliverResult.outboundDeliveryError) outboundConnOnly
    (fun _ => ⟨[], rfl⟩) (fun _ => rfl)

/-- C9: frame condition of the outbound router: on exit the payload, target and
connection identifier of the message are unchanged; target_list is either
unchanged, or was populated exactly once from a successful resolution, which
happens only when target and target list were absent (falsy) and a connection
identifier was present. -/
theorem outbound_router_frame (resolve : String → ResolveResult)
    (deliver : OutboundMessage → DeliverResult) (outbound : OutboundMessage) :
    (outbound_message_router resolve deliver outbound).2.1.payload
      = outbound.payload ∧
    (outbound_message_router resolve deliver outbound).2.1.target
      = outbound.target ∧
    (outbound_message_router resolve deliver outbound).2.1.connection_id
      = outbound.connection_id ∧
    ((outbound_message_router resolve deliver outbound).2.1 = outbound ∨
      (targetTruthy outbound.target = false ∧
       listTruthy outbound.target_list = false ∧
       strTruthy outbound.connection_id = true ∧
       ∃ tgts, resolve (outbound.connection_id.getD "") = ResolveResult.ok tgts ∧
         (outbound_message_router resolve deliver outbound).2.1
            = { outbound with target_list := some tgts })) := by
  have hkey : (outbound_message_router resolve deliver outbound).2.1 = outbound ∨
      (targetTruthy outbound.target = false ∧
       listTruthy outbound.target_list = false ∧
       strTruthy outbound.connection_id = true ∧
       ∃ tgts, resolve (outbound.connection_id.getD "") = ResolveResult.ok tgts ∧
         (outbound_message_router resolve deliver outbound).2.1
            = { outbound with target_list := some tgts }) := by
    unfold outbound_message_router
    split
    case isTrue h =>
      simp only [Bool.and_eq_true, Bool.not_eq_true'] at h
      obtain ⟨⟨h1, h2⟩, h3⟩ := h
      cases hr : resolve (outbound.connection_id.getD "")
      case ok tgts =>
        rw [deliverStep_message]
        exact Or.inr ⟨h1, h2, h3, tgts, rfl, rfl⟩
      case connectionManagerError => exact Or.inl rfl
      case otherError e => exact Or.inl rfl
    case isFalse h =>
      rw [deliverStep_message]
      exact Or.inl rfl
  obtain h | ⟨h1, h2, h3, tgts, hr, hmsg⟩ := hkey
  · rw [h]
    exact ⟨rfl, rfl, rfl, Or.inl rfl⟩
  · rw [hmsg]
    exact ⟨rfl, rfl, rfl, Or.inr ⟨h1, h2, h3, tgts, hr, rfl⟩⟩

/-- C10: the router propagates an exception exactly when either resolution was
attempted and raised something other than `ConnectionManagerError`, or
`deliver` was invoked on a message and raised something other than
`OutboundDeliveryError`; the two expected error classes are always swallowed. -/
theorem router_raises_iff_unexpected (resolve : String → ResolveResult)
    (deliver : OutboundMessage → DeliverResult) (outbound : OutboundMessage)
    (e : String) :
    (outbound_message_router resolve deliver outbound).1 = RouterOutcome.raised e
      ↔ (((!targetTruthy outbound.target && !listTruthy outbound.target_list
            && strTruthy outbound.connection_id) = true ∧
          resolve (outbound.connection_id.getD "")
            = ResolveResult.otherError e) ∨
        (∃ m2, RouterEvent.deliverCall m2
            ∈ (outbound_message_router resolve deliver outbound).2.2 ∧
          deliver m2 = DeliverResult.otherError e)) := by
  unfold outbound_message_router
  split
  case isTrue h =>
    cases hr : resolve (outbound.connection_id.getD "")
    case ok tgts =>
      cases hd : deliver { outbound with target_list := some tgts } <;>
        simp [deliverStep, hd, hr, h]
    case connectionManagerError => simp [hr, h]
    case otherError e2 => simp [hr, h, eq_comm]
  case isFalse h =>
    simp only [Bool.not_eq_true] at h
    cases hd : deliver outbound <;> simp [deliverStep, hd, h]

/-- Receipt metadata attached to an inbound message: the requested
direct-response mode (`None` or a mode string, per the spec one of none,
one-response, all-responses). -/
structure Receipt where
  direct_response_requested : Option String
deriving DecidableEq, Repr

/-- An inbound message: payload, receipt, transport type identifier
(`transport.inbound.message`). -/
structure InboundMessage where
  payload : String
  receipt : Receipt
  transport_type : String
deriving DecidableEq, Repr

/-- Modelled from the spec: `InboundSession.REPLY_MODE_NONE` (the
`transport.inbound.session` module is not under src); the spec lists the
direct-response modes as none / one-response / all-responses, with the none
mode the sentinel meaning no direct response is expected. -/
def REPLY_MODE_NONE : String := "none"

/-- The record of a call into
`InboundTransportManager.dispatch_complete(message, task, exc_info)`. -/
structure DispatchCompleteCall where
  message : InboundMessage
  task : Nat
  excInfo : Option String
deriving DecidableEq, Repr

/-- The completion callback the inbound router builds for the Dispatcher: a
lambda closing over the routed message that forwards (message, task,
exc_info) to `InboundTransportManager.dispatch_complete`. -/
def completionCallback (message : InboundMessage) (task : Nat)
    (excInfo : Option String) : DispatchCompleteCall :=
  { message := message, task := task, excInfo := excInfo }

/-- The responder callback handed to the Dispatcher alongside an inbound
message; the code always passes `self.outbound_message_router`. -/
inductive ResponderCallback where
  | outboundRouterCallback
deriving DecidableEq, Repr

/-- Observable actions of the inbound router: a `LOGGER.warning` mentioning
the transport type, or a `Dispatcher.queue_message` call carrying the message,
the responder callback, and the message captured by the completion callback. -/
inductive InboundEvent where
  | logWarning (transportType : String)
  | queueMessage (m : InboundMessage) (responder : ResponderCallback)
      (completionClosesOver : InboundMessage)
deriving DecidableEq, Repr

/-- Shallow embedding of `Conductor.inbound_message_router`: warn when a
direct response is requested with a mode other than `REPLY_MODE_NONE`
(Python truthiness on the field, then inequality against the sentinel), then
unconditionally enqueue the message once on the Dispatcher. -/
def inbound_message_router (message : InboundMessage) : List InboundEvent :=
  (if strTruthy message.receipt.direct_response_requested &&
      message.receipt.direct_response_requested != some REPLY_MODE_NONE then
    [InboundEvent.logWarning message.transport_type]
  else []) ++
  [InboundEvent.queueMessage message ResponderCallback.outboundRouterCallback message]

/-- Recognizer for queue-message events. -/
def isQueueMessage : InboundEvent → Bool
  | .queueMessage _ _ _ => true
  | _ => false

/-- Whether an invocation of the inbound router logs the direct-response
warning. -/
def routerWarns (m : InboundMessage) : Bool :=
  (inbound_message_router m).any fun e =>
    match e with
    | .logWarning _ => true
    | _ => false

/-- The warning condition as the spec sentence behind C8 states it, for a
given capability map saying which transport types can service direct
responses: a direct response is requested with a mode other than none AND the
transport type of the message cannot service direct responses. -/
def claimWarnCondition (canServiceDirect : String → Bool)
    (m : InboundMessage) : Bool :=
  (strTruthy m.receipt.direct_response_requested &&
    m.receipt.direct_response_requested != some REPLY_MODE_NONE) &&
  !canServiceDirect m.transport_type

/-- C7: a single invocation of the inbound router enqueues exactly one task on
the Dispatcher: the message itself unchanged, the outbound router as the
responder callback, and a completion callback closing over that same message;
and the completion callback forwards (message, task, exc_info) to
`dispatch_complete`. The enqueue happens on every path, warning branch
included. -/
theorem inbound_enqueues_exactly_once (m : InboundMessage) :
    (inbound_message_router m).filter isQueueMessage
      = [InboundEvent.queueMessage m ResponderCallback.outboundRouterCallback m] ∧
    ∀ task excInfo, completionCallback m task excInfo
      = { message := m, task := task, excInfo := excInfo } := by
  constructor
  · unfold inbound_message_router
    split <;> simp [isQueueMessage]
  · intro task excInfo
    rfl

/-- A concrete inbound message requesting a direct response with mode
all-responses over a transport. -/
def inboundDirectAll : InboundMessage :=
  { payload := "payload", receipt := { direct_response_requested := some "all" },
    transport_type := "ws" }

/-- C8 fails on the code: the router consults only the receipt field, never
any transport capability. Under a capability map in which the transport of
this message can service direct responses, the claimed two-sided condition is
false, yet the warning is logged. -/
theorem warning_despite_capable_transport :
    routerWarns inboundDirectAll = true ∧
    claimWarnCondition (fun _ => true) inboundDirectAll = false := by
  constructor
  · rfl
  · rfl

/-- C8 as amended: the warning is logged exactly when the receipt requests a
direct response with a mode other than `REPLY_MODE_NONE`, with no dependence
on transport capability; and the router neither rejects nor mutates the
message, which is enqueued unchanged. -/
theorem direct_response_warning_condition (m : InboundMessage) :
    routerWarns m
      = (strTruthy m.receipt.direct_response_requested &&
          m.receipt.direct_response_requested != some REPLY_MODE_NONE) ∧
    InboundEvent.queueMessage m ResponderCallback.outboundRouterCallback m
      ∈ inbound_message_router m := by
  constructor
  · unfold routerWarns inbound_message_router
    split
    case isTrue h => simp [h]
    case isFalse h =>
      simp only [Bool.not_eq_true] at h
      simp [h]
  · unfold inbound_message_router
    split <;> simp

/-- Outcome of an awaited collaborator call during startup or setup: success,
or an exception with a payload. -/
inductive StepResult where
  | ok
  | error (e : String)
deriving DecidableEq, Repr

/-- The outcomes of the collaborator calls `Conductor.start` makes, listed in
program order, together with the settings flags that gate the optional
sections. -/
structure StartEnv where
  wallet : StepResult
  ledger : StepResult
  inboundStart : StepResult
  outboundStart : StepResult
  adminPresent : Bool
  adminStart : StepResult
  testSuiteEndpoint : Bool
  createStaticConnection : StepResult
  printInvitation : Bool
  createInvitation : StepResult
deriving DecidableEq, Repr

/-- Observable actions of `Conductor.start`: `LOGGER.exception` entries, the
binding of the admin responder as process default responder, the banner, the
debug static connection, the printed invitation. -/
inductive StartEvent where
  | logException (s : String)
  | bindResponder
  | banner
  | staticConnection
  | invitationPrinted
deriving DecidableEq, Repr

/-- Result of `Conductor.start`: the events that happened, and the exception
that propagated out of start, if any. -/
structure StartResult where
  events : List StartEvent
  raised : Option String
deriving DecidableEq, Repr

/-- The admin-server block of `Conductor.start`: `admin_server.start()` inside
a `try` whose handler logs and swallows every exception, followed by an
unconditional `bind_instance(BaseResponder, admin_server.responder)`. -/
def adminSection (env : StartEnv) : List StartEvent :=
  if env.adminPresent then
    (match env.adminStart with
     | .ok => []
     | .error _ => [StartEvent.logException "Unable to start administration API"]) ++
    [StartEvent.bindResponder]
  else []

/-- The trailing debug block of `Conductor.start`: the invitation is printed
inside a `try` that logs and swallows every exception. -/
def invitationSection (env : StartEnv) : List StartEvent :=
  if env.printInvitation then
    match env.createInvitation with
    | .ok => [StartEvent.invitationPrinted]
    | .error _ => [StartEvent.logException "Error creating invitation"]
  else []

/-- Shallow embedding of `Conductor.start`: wallet and ledger configuration
propagate failures uncaught; inbound and outbound transport startup log and
re-raise; the admin section logs and swallows a start failure and then binds
the responder; the banner is printed; the debug static connection propagates
failures uncaught; the debug invitation swallows failures. -/
def start (env : StartEnv) : StartResult :=
  match env.wallet with
  | .error e => { events := [], raised := some e }
  | .ok =>
    match env.ledger with
    | .error e => { events := [], raised := some e }
    | .ok =>
      match env.inboundStart with
      | .error e =>
          { events := [StartEvent.logException "Unable to start inbound transports"],
            raised := some e }
      | .ok =>
        match env.outboundStart with
        | .error e =>
            { events := [StartEvent.logException "Unable to start outbound transports"],
              raised := some e }
        | .ok =>
          match (if env.testSuiteEndpoint then env.createStaticConnection
                 else StepResult.ok) with
          | .error e =>
              { events := adminSection env ++ [StartEvent.banner], raised := some e }
          | .ok =>
              { events := adminSection env ++ [StartEvent.banner] ++
                  (if env.testSuiteEndpoint then [StartEvent.staticConnection]
                   else []) ++
                  invitationSection env,
                raised := none }

/-- C1: with wallet and ledger configured, a failing
`InboundTransportManager.start` is logged and its exception propagates out of
`Conductor.start`, likewise a failing `OutboundTransportManager.start`;
whereas the outcome of `AdminServer.start` never changes whether
`Conductor.start` raises, and an admin start failure is logged and
swallowed. -/
theorem start_failure_policy (env : StartEnv) (e : String)
    (hw : env.wallet = StepResult.ok) (hl : env.ledger = StepResult.ok) :
    ((start { env with inboundStart := StepResult.error e }).raised = some e ∧
      StartEvent.logException "Unable to start inbound transports"
        ∈ (start { env with inboundStart := StepResult.error e }).events) ∧
    (env.inboundStart = StepResult.ok →
      (start { env with outboundStart := StepResult.error e }).raised = some e ∧
      StartEvent.logException "Unable to start outbound transports"
        ∈ (start { env with outboundStart := StepResult.error e }).events) ∧
    ((start { env with adminStart := StepResult.error e }).raised
        = (start { env with adminStart := StepResult.ok }).raised) ∧
    (env.adminPresent = true → env.inboundStart = StepResult.ok →
      env.outboundStart = StepResult.ok →
      StartEvent.logException "Unable to start administration API"
        ∈ (start { env with adminStart := StepResult.error e }).events) := by
  rcases env with ⟨w, l, si, so, ap, sa, ts, cs, pv, ci⟩
  dsimp only at hw hl
  subst hw hl
  cases si <;> cases so <;> cases ap <;> cases ts <;> cases cs <;>
    simp [start, adminSection, invitationSection]

/-- A start environment in which every collaborator call succeeds and an admin
server is present. -/
def startEnvAllOk : StartEnv :=
  { wallet := StepResult.ok, ledger := StepResult.ok,
    inboundStart := StepResult.ok, outboundStart := StepResult.ok,
    adminPresent := true, adminStart := StepResult.ok,
    testSuiteEndpoint := false, createStaticConnection := StepResult.ok,
    printInvitation := false, createInvitation := StepResult.ok }

theorem start_failure_policy_witness :
    startEnvAllOk.wallet = StepResult.ok ∧
    (start { startEnvAllOk with inboundStart := StepResult.error "boom" }).raised
      = some "boom" := by
  exact ⟨rfl, (start_failure_policy startEnvAllOk "boom" rfl rfl).1.1⟩

/-- The all-successful start environment except that `AdminServer.start`
raises. -/
def startEnvAdminFails : StartEnv :=
  { startEnvAllOk with adminStart := StepResult.error "admin down" }

/-- C2 fails on the code: with every other step succeeding but
`AdminServer.start` raising, `Conductor.start` returns normally and the admin
responder is still bound as the process default responder, because the
`bind_instance` call sits outside the try/except around `start()`. -/
theorem responder_bound_despite_admin_start_failure :
    startEnvAdminFails.adminStart = StepResult.error "admin down" ∧
    (start startEnvAdminFails).raised = none ∧
    StartEvent.bindResponder ∈ (start startEnvAdminFails).events := by
  refine ⟨rfl, rfl, ?_⟩
  simp [start, startEnvAdminFails, startEnvAllOk, adminSection, invitationSection]

/-- C2 as amended: when wallet, ledger and both transport starts succeed and
an admin server is present, the admin responder is bound as process default
responder regardless of whether `AdminServer.start` succeeds or raises. -/
theorem responder_bound_whenever_admin_present (env : StartEnv)
    (hw : env.wallet = StepResult.ok) (hl : env.ledger = StepResult.ok)
    (hi : env.inboundStart = StepResult.ok)
    (ho : env.outboundStart = StepResult.ok)
    (ha : env.adminPresent = true) :
    StartEvent.bindResponder ∈ (start env).events := by
  rcases env with ⟨w, l, si, so, ap, sa, ts, cs, pv, ci⟩
  dsimp only at hw hl hi ho ha
  subst hw hl hi ho ha
  cases sa <;> cases ts <;> cases cs <;>
    simp [start, adminSection, invitationSection]

theorem responder_bound_whenever_admin_present_witness :
    startEnvAdminFails.adminPresent = true ∧
    StartEvent.bindResponder ∈ (start startEnvAdminFails).events := by
  exact ⟨rfl,
    responder_bound_whenever_admin_present startEnvAdminFails rfl rfl rfl rfl rfl⟩

/-- Settings and collaborator outcomes consumed by `Conductor.setup`:
whether `admin.enabled` is set, the configured webhook URLs, the outcome of
the admin-server construction block, and whether a stats Collector is
resolvable from the context. -/
structure SetupEnv where
  adminEnabled : Bool
  webhookUrls : List String
  adminConstruction : StepResult
  collectorPresent : Bool
deriving DecidableEq, Repr

/-- Observable actions of `Conductor.setup`: transport manager setup, webhook
registration, the admin-server binding, `LOGGER.exception` entries, the
instance-level wraps and the class-level wrap of the shared
`ConnectionManager` methods (`get_connection_targets`, `fetch_did_document`,
`find_message_connection`). -/
inductive SetupEvent where
  | inboundSetup
  | outboundSetup
  | addWebhook (url : String)
  | bindAdminServer
  | logException (s : String)
  | wrapConductorOutboundRouter
  | wrapDispatcherHandleMessage
  | wrapConnectionManagerClass
deriving DecidableEq, Repr

/-- Result of `Conductor.setup`: the events that happened, and the exception
that propagated, if any. -/
structure SetupResult where
  events : List SetupEvent
  raised : Option String
deriving DecidableEq, Repr

/-- Shallow embedding of `Conductor.setup`: both transport managers are set
up; when `admin.enabled` is set the admin block (construction, webhook
registration, bind) runs inside a try whose handler logs and re-raises; when
a Collector is resolvable, the conductor wraps its own outbound router, the
Dispatcher message handler, and — unconditionally on every invocation — the
class-level `ConnectionManager` methods. -/
def setup (env : SetupEnv) : SetupResult :=
  match (if env.adminEnabled then env.adminConstruction else StepResult.ok) with
  | .error e =>
      { events := [SetupEvent.inboundSetup, SetupEvent.outboundSetup,
          SetupEvent.logException "Unable to register admin server"],
        raised := some e }
  | .ok =>
      { events := [SetupEvent.inboundSetup, SetupEvent.outboundSetup] ++
          (if env.adminEnabled then
            env.webhookUrls.map SetupEvent.addWebhook ++ [SetupEvent.bindAdminServer]
          else []) ++
          (if env.collectorPresent then
            [SetupEvent.wrapConductorOutboundRouter,
             SetupEvent.wrapDispatcherHandleMessage,
             SetupEvent.wrapConnectionManagerClass]
          else []),
        raised := none }

/-- A setup environment with no admin server and a resolvable Collector. -/
def setupEnvCollector : SetupEnv :=
  { adminEnabled := false, webhookUrls := [],
    adminConstruction := StepResult.ok, collectorPresent := true }

/-- C3 describes the intent, but the code violates it: the class-level wrap of
the shared `ConnectionManager` methods is executed on every `setup`
invocation with a Collector present, so a process that invokes `setup` twice
installs the class-level instrumentation twice, not at most once. -/
theorem setup_double_wraps_class_methods :
    ((setup setupEnvCollector).events ++ (setup setupEnvCollector).events).count
        SetupEvent.wrapConnectionManagerClass = 2 ∧
    ¬ ((setup setupEnvCollector).events ++ (setup setupEnvCollector).events).count
        SetupEvent.wrapConnectionManagerClass ≤ 1 := by
  constructor
  · rfl
  · simp [setup, setupEnvCollector]
